import Mathlib

/-!
Verification of the run0 sudo shim (`src/main.rs`) against its
natural-language specification.

Strings are modeled as Lean `String` / `List Char`; Rust `OsString` and
`PathBuf` values that the program only moves around are modeled as `String`.
The quoting engine (`shell_escape_arg` / `shell_escape`, src/main.rs lines
269-285) is embedded character by character; the CLI entry point `main`
(lines 110-267) is embedded, after clap parsing, as a pure function from the
parsed arguments, the trailing command tokens, the consulted environment
variables and the account database to either a diagnostic exit (modeling
`eprintln!` + `exit(1)`) or the final `exec`ed argument vector.
-/

/-- Rust `char::is_ascii_alphanumeric` (used in `shell_escape_arg`,
src/main.rs line 272): ASCII uppercase, lowercase, or digit. -/
def isAsciiAlphanumeric (c : Char) : Bool :=
  (65 ≤ c.toNat && c.toNat ≤ 90) || (97 ≤ c.toNat && c.toNat ≤ 122)
    || (48 ≤ c.toNat && c.toNat ≤ 57)

/-- The allow-list test of src/main.rs line 272: the character is kept
unescaped iff it matches `'_' | '-' | '$'` or is ASCII alphanumeric. -/
def escAllowed (c : Char) : Bool :=
  (c == '_' || c == '-' || c == '$') || isAsciiAlphanumeric c

/-- Character-list core of `shell_escape_arg` (src/main.rs lines 269-278):
walk the characters; before any character that is not allow-listed, push a
single backslash; always push the character itself. -/
def escapeArg : List Char → List Char
  | [] => []
  | c :: s =>
    if !(c == '_' || c == '-' || c == '$') && !isAsciiAlphanumeric c then
      '\\' :: c :: escapeArg s
    else
      c :: escapeArg s

/-- Character-list core of `shell_escape` (src/main.rs lines 280-285):
escape each argument and join the results with single space separators
(Rust `.join(" ")`). -/
def escapeJoin : List (List Char) → List Char
  | [] => []
  | [a] => escapeArg a
  | a :: rest => escapeArg a ++ ' ' :: escapeJoin rest

/-- `shell_escape_arg` of src/main.rs lines 269-278, at `String` level. -/
def shell_escape_arg (s : String) : String :=
  ⟨escapeArg s.data⟩

/-- `shell_escape` of src/main.rs lines 280-285, at `String` level. -/
def shell_escape (cmd : List String) : String :=
  ⟨escapeJoin (cmd.map String.data)⟩

theorem escapeArg_cons (c : Char) (s : List Char) :
    escapeArg (c :: s) = (if escAllowed c then [c] else ['\\', c]) ++ escapeArg s := by
  have h : (!(c == '_' || c == '-' || c == '$') && !isAsciiAlphanumeric c)
      = !escAllowed c := by
    simp [escAllowed, Bool.not_or]
  rw [escapeArg, h]
  cases he : escAllowed c <;> simp [he]

theorem escAllowed_toNat (c : Char) (h : escAllowed c = true) :
    c.toNat = 95 ∨ c.toNat = 45 ∨ c.toNat = 36
      ∨ (65 ≤ c.toNat ∧ c.toNat ≤ 90) ∨ (97 ≤ c.toNat ∧ c.toNat ≤ 122)
      ∨ (48 ≤ c.toNat ∧ c.toNat ≤ 57) := by
  simp only [escAllowed, isAsciiAlphanumeric, Bool.or_eq_true, beq_iff_eq,
    Bool.and_eq_true, decide_eq_true_eq] at h
  rcases h with ((rfl | rfl) | rfl) | h
  · exact Or.inl rfl
  · exact Or.inr (Or.inl rfl)
  · exact Or.inr (Or.inr (Or.inl rfl))
  · tauto

theorem escAllowed_val (c : Char) (h : escAllowed c = true) :
    c.toNat ≠ 32 ∧ c.toNat ≠ 9 ∧ c.toNat ≠ 10 ∧ c.toNat ≠ 92
      ∧ c.toNat ≠ 39 ∧ c.toNat ≠ 34 := by
  have ht := escAllowed_toNat c h
  omega

/-- An argument made only of allow-listed characters passes through
`escapeArg` unchanged. -/
theorem escapeArg_id (l : List Char) (h : ∀ c ∈ l, escAllowed c = true) :
    escapeArg l = l := by
  induction l with
  | nil => rfl
  | cons c s ih =>
    rw [escapeArg_cons, if_pos (h c (List.mem_cons_self c s))]
    simp [ih fun d hd => h d (List.mem_cons_of_mem c hd)]

/-- C6: Identity invariant of the Quoting Engine: for every argument string
consisting only of allow-listed characters (ASCII letters, digits,
underscore, hyphen, dollar-sign), the engine's output for that argument
equals the input string unchanged. -/
theorem shell_escape_arg_identity (s : String)
    (h : ∀ c ∈ s.data, escAllowed c = true) :
    shell_escape_arg s = s := by
  show (⟨escapeArg s.data⟩ : String) = s
  rw [escapeArg_id s.data h]

theorem shell_escape_arg_identity_witness :
    shell_escape_arg "Abc_XY-9$0" = "Abc_XY-9$0" :=
  shell_escape_arg_identity "Abc_XY-9$0" (by decide)

/-! ## A model of POSIX shell word splitting

The round-trip law (spec section 8) quantifies over the behavior of an
external collaborator, a POSIX-compliant shell. The fragment of shell token
recognition relevant to the Quoting Engine's output is modeled here.
-/

/-- The apostrophe character (code 39). -/
def squote : Char := Char.ofNat 39

/-- The double-quote character (code 34). -/
def dquote : Char := Char.ofNat 34

/-- The backquote character (code 96). -/
def bquote : Char := Char.ofNat 96

/-- Modelled from the spec: the default IFS blanks at which an unquoted
POSIX shell input is split into words (space, tab, newline). -/
def isBlank (c : Char) : Bool :=
  c == ' ' || c == '\t' || c == '\n'

/-- Quoting state of the word recognizer: outside quotes, inside single
quotes, inside double quotes. -/
inductive QState where
  | unq
  | sq
  | dq

/-- Modelled from the spec: POSIX shell token recognition, the external
collaborator of spec sections 4.3, 6 and 8 (`the operating system shell`
is not part of this repository). The recognizer splits an input character
stream into words: unquoted IFS blanks separate words; an unquoted
backslash makes the next character literal, except that backslash-newline
is a line continuation and both characters are removed; single quotes make
everything up to the closing quote literal; double quotes make everything
literal except backslash before `$`, backquote, double quote, backslash or
newline. Parameter, command and arithmetic expansion are not modeled:
`$` and backquote are treated as literal characters, matching the spec's
section 9 note that the engine deliberately treats `$` as always-literal.
`none` models a syntax error (unterminated quote or trailing backslash).
`cur` is the word accumulated so far (`none` when between words). -/
def splitCore : List Char → QState → Option (List Char) → Option (List (List Char))
  | [], .unq, none => some []
  | [], .unq, some w => some [w]
  | [], .sq, _ => none
  | [], .dq, _ => none
  | c :: rest, .unq, cur =>
    if isBlank c then
      match cur with
      | none => splitCore rest .unq none
      | some w => (splitCore rest .unq none).map (fun ws => w :: ws)
    else if c = '\\' then
      match rest with
      | [] => none
      | d :: rest' =>
        if d = '\n' then splitCore rest' .unq cur
        else splitCore rest' .unq (some (cur.getD [] ++ [d]))
    else if c = squote then splitCore rest .sq (some (cur.getD []))
    else if c = dquote then splitCore rest .dq (some (cur.getD []))
    else splitCore rest .unq (some (cur.getD [] ++ [c]))
  | c :: rest, .sq, cur =>
    if c = squote then splitCore rest .unq cur
    else splitCore rest .sq (some (cur.getD [] ++ [c]))
  | c :: rest, .dq, cur =>
    if c = dquote then splitCore rest .unq cur
    else if c = '\\' then
      match rest with
      | [] => none
      | d :: rest' =>
        if d = '\n' then splitCore rest' .dq cur
        else if d = '$' ∨ d = bquote ∨ d = dquote ∨ d = '\\' then
          splitCore rest' .dq (some (cur.getD [] ++ [d]))
        else splitCore rest' .dq (some (cur.getD [] ++ ['\\', d]))
    else splitCore rest .dq (some (cur.getD [] ++ [c]))

/-- Modelled from the spec: word-splitting an input by a POSIX shell, at
`String` level. -/
def posixSplitWords (s : String) : Option (List String) :=
  (splitCore s.data QState.unq none).map (fun ws => ws.map String.mk)

theorem splitCore_cons_unq (c : Char) (rest : List Char) (cur : Option (List Char)) :
    splitCore (c :: rest) QState.unq cur =
      (if isBlank c then
        match cur with
        | none => splitCore rest QState.unq none
        | some w => (splitCore rest QState.unq none).map (fun ws => w :: ws)
      else if c = '\\' then
        match rest with
        | [] => none
        | d :: rest' =>
          if d = '\n' then splitCore rest' QState.unq cur
          else splitCore rest' QState.unq (some (cur.getD [] ++ [d]))
      else if c = squote then splitCore rest QState.sq (some (cur.getD []))
      else if c = dquote then splitCore rest QState.dq (some (cur.getD []))
      else splitCore rest QState.unq (some (cur.getD [] ++ [c]))) := by
  rw [splitCore.eq_def]

theorem escAllowed_unq (c : Char) (h : escAllowed c = true) :
    isBlank c = false ∧ c ≠ '\\' ∧ c ≠ squote ∧ c ≠ dquote := by
  obtain ⟨h32, h9, h10, h92, h39, h34⟩ := escAllowed_val c h
  refine ⟨?_, fun he => h92 (by rw [he]; rfl), fun he => h39 (by rw [he]; rfl),
    fun he => h34 (by rw [he]; rfl)⟩
  simp only [isBlank, Bool.or_eq_false_iff, beq_eq_false_iff_ne, ne_eq]
  exact ⟨⟨fun he => h32 (by rw [he]; rfl), fun he => h9 (by rw [he]; rfl)⟩,
    fun he => h10 (by rw [he]; rfl)⟩

/-- Splitting the escape of an argument, starting inside a word, appends the
argument's characters literally to the word in progress. -/
theorem splitCore_escapeArg (s : List Char) (hnl : '\n' ∉ s) :
    ∀ rest w : List Char,
      splitCore (escapeArg s ++ rest) QState.unq (some w)
        = splitCore rest QState.unq (some (w ++ s)) := by
  induction s with
  | nil => intro rest w; simp [escapeArg]
  | cons c s ih =>
    intro rest w
    have hcnl : c ≠ '\n' := fun h => hnl (h ▸ List.mem_cons_self c s)
    have hnl' : '\n' ∉ s := fun h => hnl (List.mem_cons_of_mem c h)
    rw [escapeArg_cons]
    by_cases hc : escAllowed c = true
    · obtain ⟨hb, h92, h39, h34⟩ := escAllowed_unq c hc
      rw [if_pos hc, List.singleton_append, List.cons_append, splitCore_cons_unq]
      rw [if_neg (by simp [hb]), if_neg h92, if_neg h39, if_neg h34]
      rw [show (some w).getD [] ++ [c] = w ++ [c] from rfl]
      rw [ih hnl' rest (w ++ [c])]
      simp
    · rw [if_neg hc]
      show splitCore ('\\' :: c :: (escapeArg s ++ rest)) QState.unq (some w) = _
      rw [splitCore_cons_unq]
      rw [if_neg (by decide), if_pos rfl]
      show (if c = '\n' then splitCore (escapeArg s ++ rest) QState.unq (some w)
        else splitCore (escapeArg s ++ rest) QState.unq (some ((some w).getD [] ++ [c]))) = _
      rw [if_neg hcnl]
      rw [show (some w).getD [] ++ [c] = w ++ [c] from rfl]
      rw [ih hnl' rest (w ++ [c])]
      simp

/-- Splitting the escape of a nonempty argument, starting between words,
opens a word holding exactly that argument. -/
theorem splitCore_escapeArg_start (s : List Char) (hne : s ≠ []) (hnl : '\n' ∉ s)
    (rest : List Char) :
    splitCore (escapeArg s ++ rest) QState.unq none
      = splitCore rest QState.unq (some s) := by
  cases s with
  | nil => exact absurd rfl hne
  | cons c s =>
    have hcnl : c ≠ '\n' := fun h => hnl (h ▸ List.mem_cons_self c s)
    have hnl' : '\n' ∉ s := fun h => hnl (List.mem_cons_of_mem c h)
    rw [escapeArg_cons]
    by_cases hc : escAllowed c = true
    · obtain ⟨hb, h92, h39, h34⟩ := escAllowed_unq c hc
      rw [if_pos hc, List.singleton_append, List.cons_append, splitCore_cons_unq]
      rw [if_neg (by simp [hb]), if_neg h92, if_neg h39, if_neg h34]
      rw [show (none : Option (List Char)).getD [] ++ [c] = [c] from rfl]
      rw [splitCore_escapeArg s hnl' rest [c]]
      simp
    · rw [if_neg hc]
      show splitCore ('\\' :: c :: (escapeArg s ++ rest)) QState.unq none = _
      rw [splitCore_cons_unq]
      rw [if_neg (by decide), if_pos rfl]
      show (if c = '\n' then splitCore (escapeArg s ++ rest) QState.unq none
        else splitCore (escapeArg s ++ rest) QState.unq
          (some ((none : Option (List Char)).getD [] ++ [c]))) = _
      rw [if_neg hcnl]
      rw [show (none : Option (List Char)).getD [] ++ [c] = [c] from rfl]
      rw [splitCore_escapeArg s hnl' rest [c]]
      simp

/-- Core round-trip: splitting the space-join of the escaped arguments
recovers the arguments, provided each is nonempty and newline-free. -/
theorem splitCore_escapeJoin :
    ∀ A : List (List Char), (∀ a ∈ A, a ≠ [] ∧ '\n' ∉ a) →
      splitCore (escapeJoin A) QState.unq none = some A := by
  intro A
  induction A with
  | nil => intro _; rfl
  | cons a t ih =>
    intro h
    obtain ⟨ha, hanl⟩ := h a (List.mem_cons_self a t)
    cases t with
    | nil =>
      show splitCore (escapeArg a) QState.unq none = some [a]
      rw [← List.append_nil (escapeArg a), splitCore_escapeArg_start a ha hanl []]
      rfl
    | cons b t' =>
      show splitCore (escapeArg a ++ ' ' :: escapeJoin (b :: t')) QState.unq none = _
      rw [splitCore_escapeArg_start a ha hanl (' ' :: escapeJoin (b :: t'))]
      rw [splitCore_cons_unq, if_pos (by decide)]
      rw [ih fun x hx => h x (List.mem_cons_of_mem a hx)]
      rfl

/-- C1 (counterexample): the round-trip law fails as stated. For the
argument sequence `[""]` the Quoting Engine emits the empty string, which a
POSIX shell splits into zero words, not back into the one empty argument;
and for `["a\nb"]` the engine emits backslash-newline, a POSIX line
continuation that the shell removes, so the argument comes back as `"ab"`. -/
theorem shell_escape_roundtrip_counterexample :
    posixSplitWords (shell_escape [""]) ≠ some [""]
      ∧ posixSplitWords (shell_escape ["a\nb"]) ≠ some ["a\nb"] := by
  constructor
  · decide
  · decide

/-- C1 (amended): for every sequence of argument strings, each nonempty and
containing no newline character, word-splitting the output of
`shell_escape` under the modeled POSIX shell (token recognition without
parameter or command expansion) reproduces exactly the sequence, each
argument becoming exactly one word. -/
theorem shell_escape_roundtrip (A : List String)
    (h : ∀ a ∈ A, a.data ≠ [] ∧ '\n' ∉ a.data) :
    posixSplitWords (shell_escape A) = some A := by
  show (splitCore (escapeJoin (A.map String.data)) QState.unq none).map
      (fun ws => ws.map String.mk) = some A
  rw [splitCore_escapeJoin (A.map String.data) ?ha]
  case ha =>
    intro a ha
    obtain ⟨x, hx, rfl⟩ := List.mem_map.mp ha
    exact h x hx
  show some ((A.map String.data).map String.mk) = some A
  rw [List.map_map]
  have hmk : (String.mk ∘ String.data) = id := funext fun s => rfl
  rw [hmk, List.map_id]

theorem shell_escape_roundtrip_witness :
    posixSplitWords (shell_escape ["echo", "hi there", "a=b;c&d|e$f", "x\ty"])
      = some ["echo", "hi there", "a=b;c&d|e$f", "x\ty"] :=
  shell_escape_roundtrip ["echo", "hi there", "a=b;c&d|e$f", "x\ty"] (by decide)

/-! ## The spec-side description of the quoting algorithm (for C3) -/

/-- Modelled from the spec (section 4.3), for refinement against the
source: per-character rule of the Quoting Engine. A character that is an
ASCII letter, an ASCII digit, underscore, hyphen, or dollar-sign is emitted
unchanged; every other character has a single backslash prepended. -/
def specQuoteChar (c : Char) : List Char :=
  if (65 ≤ c.toNat ∧ c.toNat ≤ 90) ∨ (97 ≤ c.toNat ∧ c.toNat ≤ 122)
      ∨ (48 ≤ c.toNat ∧ c.toNat ≤ 57) ∨ c = '_' ∨ c = '-' ∨ c = '$' then
    [c]
  else
    ['\\', c]

/-- Modelled from the spec (section 4.3): each argument is processed
independently, character by character. -/
def specQuoteArg (s : List Char) : List Char :=
  (s.map specQuoteChar).flatten

/-- Modelled from the spec (section 4.3): the per-argument results are
joined with single ASCII space separators. -/
def specQuote (A : List (List Char)) : List Char :=
  List.intercalate [' '] (A.map specQuoteArg)

theorem escAllowed_iff (c : Char) :
    escAllowed c = true
      ↔ ((65 ≤ c.toNat ∧ c.toNat ≤ 90) ∨ (97 ≤ c.toNat ∧ c.toNat ≤ 122)
          ∨ (48 ≤ c.toNat ∧ c.toNat ≤ 57) ∨ c = '_' ∨ c = '-' ∨ c = '$') := by
  simp only [escAllowed, isAsciiAlphanumeric, Bool.or_eq_true, beq_iff_eq,
    Bool.and_eq_true, decide_eq_true_eq]
  tauto

theorem escapeArg_eq_spec (s : List Char) : escapeArg s = specQuoteArg s := by
  induction s with
  | nil => rfl
  | cons c s ih =>
    rw [escapeArg_cons]
    show _ = specQuoteChar c ++ specQuoteArg s
    rw [← ih]
    by_cases hc : escAllowed c = true
    · rw [if_pos hc, specQuoteChar, if_pos ((escAllowed_iff c).mp hc)]
    · rw [if_neg hc, specQuoteChar,
        if_neg (fun hs => hc ((escAllowed_iff c).mpr hs))]

theorem escapeJoin_eq_spec : ∀ A : List (List Char), escapeJoin A = specQuote A := by
  intro A
  induction A with
  | nil => rfl
  | cons a t ih =>
    cases t with
    | nil =>
      show escapeArg a = _
      rw [escapeArg_eq_spec]
      simp [specQuote, List.intercalate]
    | cons b t' =>
      show escapeArg a ++ ' ' :: escapeJoin (b :: t') = _
      rw [escapeArg_eq_spec, ih]
      simp only [specQuote, List.map_cons, List.intercalate,
        List.intersperse_cons_cons, List.flatten]
      simp

/-- C3: The Quoting Engine's algorithm is exactly the spec's: each argument
is processed independently; every character that is not an ASCII letter,
an ASCII digit, underscore, hyphen, or dollar-sign has a single backslash
prepended before it is emitted, allow-listed characters are emitted
unchanged; the per-argument results are joined with single ASCII space
separators into one string. -/
theorem shell_escape_algorithm :
    (∀ s : String, shell_escape_arg s = ⟨specQuoteArg s.data⟩)
      ∧ ∀ A : List String, shell_escape A = ⟨specQuote (A.map String.data)⟩ := by
  constructor
  · intro s
    show (⟨escapeArg s.data⟩ : String) = _
    rw [escapeArg_eq_spec]
  · intro A
    show (⟨escapeJoin (A.map String.data)⟩ : String) = _
    rw [escapeJoin_eq_spec]

/-! ## The CLI model

`SudoArgs` and `ShellArgs` mirror the clap-derived structs of src/main.rs
lines 8-101 (with `u64`, `PathBuf` and `OsString` values modeled as `Nat`
with its range noted and `String`). `mainRun` embeds `fn main`
(lines 110-267) from the point where `SudoArgs::parse_from` has produced
the struct and the trailing command tokens have been collected: it is a
pure function of the parsed arguments, the trailing command, the consulted
environment variables and the account database.
-/

/-- The `#[group(multiple = false)]` shell-mode pair (src/main.rs lines
8-16). -/
structure ShellArgs where
  login : Bool
  shell : Bool
deriving DecidableEq

/-- `ShellArgs::no_shell` (src/main.rs lines 19-21). -/
def ShellArgs.no_shell (s : ShellArgs) : Bool :=
  !s.login && !s.shell

/-- The clap-derived `SudoArgs` struct (src/main.rs lines 24-101).
`close_from` is the Rust `u64` field, modeled as `Nat`; parsed values are
below `2 ^ 64`. -/
structure SudoArgs where
  askpass : Bool
  bell : Bool
  background : Bool
  close_from : Nat
  preserve_all_env : Bool
  preserve_env : List String
  edit : Bool
  group : Option String
  set_home : Bool
  host : Option String
  remove_timestamp : Bool
  reset_timestamp : Bool
  list : Bool
  no_update : Bool
  non_interactive : Bool
  preserve_groups : Bool
  prompt : Option String
  chroot : Option String
  stdin : Bool
  other_user : Option String
  command_timeout : Option String
  user : Option String
  chdir : Option String
  validate : Bool
  shell : ShellArgs
deriving DecidableEq

/-- The clap defaults: every flag absent, `close_from` at its declared
default `3` (src/main.rs line 36). -/
def defaultArgs : SudoArgs where
  askpass := false
  bell := false
  background := false
  close_from := 3
  preserve_all_env := false
  preserve_env := []
  edit := false
  group := none
  set_home := false
  host := none
  remove_timestamp := false
  reset_timestamp := false
  list := false
  no_update := false
  non_interactive := false
  preserve_groups := false
  prompt := none
  chroot := none
  stdin := false
  other_user := none
  command_timeout := none
  user := none
  chdir := none
  validate := false
  shell := ⟨false, false⟩

/-- The environment variables `fn main` consults: `SUDO_ASKPASS` (line
134), `SUDO_PROMPT` (line 169) and `SHELL` (line 246). -/
structure Env where
  sudo_askpass : Option String
  sudo_prompt : Option String
  shell_var : Option String
deriving DecidableEq

/-- An environment with none of the three consulted variables set. -/
def cleanEnv : Env := ⟨none, none, none⟩

/-- An account record of the `users` crate, reduced to the field `fn main`
reads: the registered login shell (`u.shell()`, lines 244 and 248). -/
structure User where
  shell : String

/-- The account database interface of the `users` crate:
`get_user_by_name`, `get_user_by_uid` and `get_current_uid`
(src/main.rs lines 242-247). -/
structure AccountDb where
  by_name : String → Option User
  by_uid : Nat → Option User
  current_uid : Nat

/-- Outcome of a run: `exit msg` models `exit!` (src/main.rs lines
103-108), an `eprintln!` of the diagnostic on stderr followed by
`std::process::exit(1)`; `exec argv` models reaching `cmd.exec()` (line
265) with the built argument vector (program name first). -/
inductive MainResult where
  | exit (msg : String)
  | exec (argv : List String)
deriving DecidableEq

/-- The validation chain of src/main.rs lines 132-197, in source order:
the first satisfied condition produces its diagnostic; `none` means the
request passes validation. -/
def validationError (args : SudoArgs) (env : Env) : Option String :=
  if args.askpass && env.sudo_askpass.isSome then
    some "custom askpass programs are unsupported"
  else if args.close_from ≠ 3 then
    some ("close-from must be exactly 3 or unspecified, was " ++ toString args.close_from)
  else if args.edit then some "editing is not supported"
  else if args.list then some "listing privileges is unsupported"
  else if args.other_user.isSome then
    some "listing privileges of other users is unsupported"
  else if args.no_update then some "cached credentials are always updated"
  else if args.preserve_groups then some "cannot preserve groups"
  else if args.stdin then some "cannot use stdin/stderr for the password prompt"
  else if args.prompt.isSome || env.sudo_prompt.isSome then
    some "password prompt cannot be overridden"
  else if args.validate then some "cannot validate credentials"
  else if args.preserve_all_env then
    some "you may not preserve the entire environment, you cretin!"
  else if args.background then some "cannot run commands in the background"
  else if args.remove_timestamp || args.reset_timestamp then
    some "cannot alter sudo timestamps"
  else if args.chroot.isSome then some "chroot is unimplemented"
  else if args.command_timeout.isSome then some "command timeouts are unimplemented"
  else none

/-- The flag-translation segment of the built invocation (src/main.rs
lines 111-112 and 199-230): the program name, the always-present
`--background=` token, the translated flags in source order, and the
terminating `--` separator. -/
def baseFlags (args : SudoArgs) : List String :=
  ["run0", "--background="]
    ++ (match args.chdir with | some d => ["-D", d] | none => [])
    ++ args.preserve_env.map (fun v => "--setenv=" ++ v)
    ++ (match args.group with | some g => ["-g", g] | none => [])
    ++ (match args.user with | some u => ["-u", u] | none => [])
    ++ (match args.host with | some h => ["--machine=" ++ h] | none => [])
    ++ (if args.non_interactive then ["--no-ask-password"] else [])
    ++ (if args.preserve_groups then ["--no-ask-password"] else [])
    ++ ["--"]

/-- The shell lookup of src/main.rs lines 239-252. In login mode: the
target user by name when `-u` was given, else uid 0; the record's
registered shell. Otherwise (interactive mode; this function is only
consulted when `no_shell` is false, and the `panic!("BUG")` arm for
neither flag is unreachable because the guard makes `login || shell`
true): `$SHELL`, else the invoking user's record. -/
def resolveShell (args : SudoArgs) (env : Env) (db : AccountDb) : Option String :=
  if args.shell.login then
    (match args.user with
      | some name => db.by_name name
      | none => db.by_uid 0).map User.shell
  else
    env.shell_var <|> (db.by_uid db.current_uid).map User.shell

/-- `fn main` (src/main.rs lines 110-267) after argument parsing: validate
(lines 132-197, short-circuiting at the first violated rule), then build
the invocation (lines 199-263), then exec (line 265). -/
def mainRun (args : SudoArgs) (command : List String) (env : Env) (db : AccountDb) :
    MainResult :=
  match validationError args env with
  | some msg => .exit msg
  | none =>
    if args.shell.no_shell then
      if command.isEmpty then .exit "must specify --login, --shell, or a COMMAND"
      else .exec (baseFlags args ++ command)
    else
      match resolveShell args env db with
      | none => .exit "failed to lookup the target user's shell"
      | some sh =>
        .exec (baseFlags args ++ [sh]
          ++ (if args.shell.login then ["--login"] else [])
          ++ (if command.isEmpty then [] else ["-c", shell_escape command]))

/-- A database with no accounts; used to instantiate theorems whose runs
never consult the database. -/
def db0 : AccountDb := ⟨fun _ => none, fun _ => none, 1000⟩

/-! ## C2: rejection of every unsupported or unimplemented flag -/

/-- An environment carrying the `SUDO_ASKPASS` override. -/
def askpassEnv : Env := ⟨some "/usr/libexec/ssh-askpass", none, none⟩

/-- An environment carrying the `SUDO_PROMPT` override. -/
def promptEnv : Env := ⟨none, some "password:", none⟩

/-- The causes of rejection listed in C2, one entry per cause: the
argument/environment configurations that trigger the cause (the
timestamp cause is triggered by either of two flags, the custom-prompt
cause by a flag or by an environment override), and the diagnostic the
program must emit for it. -/
def rejectionCases : List (List (SudoArgs × Env) × String) :=
  [ ([({ defaultArgs with askpass := true }, askpassEnv)],
      "custom askpass programs are unsupported"),
    ([({ defaultArgs with close_from := 10 }, cleanEnv)],
      "close-from must be exactly 3 or unspecified, was 10"),
    ([({ defaultArgs with edit := true }, cleanEnv)],
      "editing is not supported"),
    ([({ defaultArgs with list := true }, cleanEnv)],
      "listing privileges is unsupported"),
    ([({ defaultArgs with other_user := some "alice" }, cleanEnv)],
      "listing privileges of other users is unsupported"),
    ([({ defaultArgs with no_update := true }, cleanEnv)],
      "cached credentials are always updated"),
    ([({ defaultArgs with preserve_groups := true }, cleanEnv)],
      "cannot preserve groups"),
    ([({ defaultArgs with stdin := true }, cleanEnv)],
      "cannot use stdin/stderr for the password prompt"),
    ([({ defaultArgs with prompt := some "pw:" }, cleanEnv),
      (defaultArgs, promptEnv)],
      "password prompt cannot be overridden"),
    ([({ defaultArgs with validate := true }, cleanEnv)],
      "cannot validate credentials"),
    ([({ defaultArgs with preserve_all_env := true }, cleanEnv)],
      "you may not preserve the entire environment, you cretin!"),
    ([({ defaultArgs with background := true }, cleanEnv)],
      "cannot run commands in the background"),
    ([({ defaultArgs with remove_timestamp := true }, cleanEnv),
      ({ defaultArgs with reset_timestamp := true }, cleanEnv)],
      "cannot alter sudo timestamps"),
    ([({ defaultArgs with chroot := some "/srv/jail" }, cleanEnv)],
      "chroot is unimplemented"),
    ([({ defaultArgs with command_timeout := some "30" }, cleanEnv)],
      "command timeouts are unimplemented") ]

/-- C2: for every request bearing any single unsupported or unimplemented
flag together with a trivial trailing command, the program exits with
status 1 (`MainResult.exit` models `eprintln!` + `exit(1)`) carrying the
cause's diagnostic, the diagnostics of distinct causes are pairwise
distinct, and no invocation is constructed (`exec` is never reached, the
result being an `exit`). -/
theorem unsupported_flags_reject :
    (∀ db : AccountDb, ∀ c ∈ rejectionCases, ∀ p ∈ c.1,
        mainRun p.1 ["true"] p.2 db = MainResult.exit c.2)
      ∧ (rejectionCases.map Prod.snd).Nodup := by
  constructor
  · intro db c hc p hp
    fin_cases hc <;> fin_cases hp <;> rfl
  · decide

theorem unsupported_flags_reject_witness :
    mainRun { defaultArgs with askpass := true } ["true"] askpassEnv db0
      = MainResult.exit "custom askpass programs are unsupported" :=
  unsupported_flags_reject.1 db0 _ (List.mem_cons_self _ _) _ (List.mem_cons_self _ _)

/-! ## C4, C5, C7: shell resolution, verbatim command, close-from -/

/-- C4: in LoginShell mode the account record consulted is the target
user's by name when `-u` was supplied and the superuser record (uid 0)
otherwise; the resolved shell is exactly that record's registered shell
and the built invocation carries it followed by the `--login` flag; a
failed lookup exits with the dedicated diagnostic, which is distinct from
every validation diagnostic. -/
theorem login_shell_resolution :
    (∀ (db : AccountDb) (target : Option String) (command : List String),
      mainRun { defaultArgs with user := target, shell := ⟨true, false⟩ }
          command cleanEnv db =
        match (match target with
               | some name => db.by_name name
               | none => db.by_uid 0) with
        | none => MainResult.exit "failed to lookup the target user's shell"
        | some u =>
          MainResult.exec (["run0", "--background="]
            ++ (match target with | some name => ["-u", name] | none => [])
            ++ ["--", u.shell, "--login"]
            ++ (if command.isEmpty then [] else ["-c", shell_escape command])))
      ∧ "failed to lookup the target user's shell" ∉ rejectionCases.map Prod.snd := by
  constructor
  · intro db target command
    cases target with
    | none =>
      cases h : db.by_uid 0 with
      | none =>
        simp [mainRun, validationError, resolveShell, ShellArgs.no_shell, h,
          defaultArgs, cleanEnv]
      | some u =>
        simp [mainRun, validationError, resolveShell, ShellArgs.no_shell, h,
          defaultArgs, cleanEnv, baseFlags]
    | some name =>
      cases h : db.by_name name with
      | none =>
        simp [mainRun, validationError, resolveShell, ShellArgs.no_shell, h,
          defaultArgs, cleanEnv]
      | some u =>
        simp [mainRun, validationError, resolveShell, ShellArgs.no_shell, h,
          defaultArgs, cleanEnv, baseFlags]
  · decide

/-- C5: in NoShell mode an empty trailing command is a terminal error with
the must-specify diagnostic, and a nonempty trailing command is appended
verbatim, in order and unquoted, after the `--` separator of the built
invocation. -/
theorem noshell_command_verbatim :
    ∀ (db : AccountDb) (command : List String),
      mainRun defaultArgs command cleanEnv db =
        if command.isEmpty then
          MainResult.exit "must specify --login, --shell, or a COMMAND"
        else
          MainResult.exec (["run0", "--background=", "--"] ++ command) := by
  intro db command
  cases command with
  | nil => rfl
  | cons a t => rfl

/-- C7: the close-from flag is accepted iff its value is exactly 3: any
other (representable `u64`) value is rejected with the close-from
diagnostic before any invocation is constructed, while with the default
value 3 the run proceeds to build and exec an invocation. -/
theorem close_from_only_default :
    (∀ (n : Nat) (env : Env) (db : AccountDb) (command : List String),
        n < 2 ^ 64 → n ≠ 3 →
        mainRun { defaultArgs with close_from := n } command env db =
          MainResult.exit
            ("close-from must be exactly 3 or unspecified, was " ++ toString n))
      ∧ ∀ (db : AccountDb) (command : List String), command ≠ [] →
          mainRun defaultArgs command cleanEnv db =
            MainResult.exec (["run0", "--background=", "--"] ++ command) := by
  constructor
  · intro n env db command _ hn
    simp [mainRun, validationError, defaultArgs, hn]
  · intro db command hc
    cases command with
    | nil => exact absurd rfl hc
    | cons a t => rfl

theorem close_from_only_default_witness :
    mainRun { defaultArgs with close_from := 10 } ["true"] cleanEnv db0
        = MainResult.exit
            ("close-from must be exactly 3 or unspecified, was " ++ toString 10)
      ∧ mainRun defaultArgs ["true"] cleanEnv db0
        = MainResult.exec ["run0", "--background=", "--", "true"] :=
  ⟨close_from_only_default.1 10 cleanEnv db0 ["true"] (by decide) (by decide),
   close_from_only_default.2 db0 ["true"] (by decide)⟩

/-! ## C8, C9: structure of the built invocation -/

/-- C8: every built invocation carries one `--setenv=NAME` token per
preserved environment variable name, contiguously, in the order given,
and before the terminating `--` separator (the decomposition exhibits the
builder's segments: `pre` is everything the builder emits before the
setenv block, `mid` everything between it and the separator). -/
theorem setenv_tokens_in_order (args : SudoArgs) (command : List String)
    (env : Env) (db : AccountDb) (argv : List String)
    (h : mainRun args command env db = MainResult.exec argv) :
    ∃ pre mid tail,
      argv = pre ++ args.preserve_env.map (fun v => "--setenv=" ++ v)
        ++ mid ++ ["--"] ++ tail := by
  unfold mainRun at h
  cases hv : validationError args env with
  | some m => rw [hv] at h; exact MainResult.noConfusion h
  | none =>
    rw [hv] at h
    by_cases hns : args.shell.no_shell = true
    · rw [if_pos hns] at h
      by_cases hce : command.isEmpty = true
      · rw [if_pos hce] at h; exact MainResult.noConfusion h
      · rw [if_neg hce] at h
        injection h with h'
        refine ⟨["run0", "--background="]
            ++ (match args.chdir with | some d => ["-D", d] | none => []),
          (match args.group with | some g => ["-g", g] | none => [])
            ++ (match args.user with | some u => ["-u", u] | none => [])
            ++ (match args.host with | some ho => ["--machine=" ++ ho] | none => [])
            ++ (if args.non_interactive then ["--no-ask-password"] else [])
            ++ (if args.preserve_groups then ["--no-ask-password"] else []),
          command, ?_⟩
        rw [← h']
        simp [baseFlags]
    · rw [if_neg hns] at h
      cases hr : resolveShell args env db with
      | none => rw [hr] at h; exact MainResult.noConfusion h
      | some sh =>
        rw [hr] at h
        injection h with h'
        refine ⟨["run0", "--background="]
            ++ (match args.chdir with | some d => ["-D", d] | none => []),
          (match args.group with | some g => ["-g", g] | none => [])
            ++ (match args.user with | some u => ["-u", u] | none => [])
            ++ (match args.host with | some ho => ["--machine=" ++ ho] | none => [])
            ++ (if args.non_interactive then ["--no-ask-password"] else [])
            ++ (if args.preserve_groups then ["--no-ask-password"] else []),
          [sh] ++ (if args.shell.login then ["--login"] else [])
            ++ (if command.isEmpty then [] else ["-c", shell_escape command]), ?_⟩
        rw [← h']
        simp [baseFlags]

/-- Arguments with two preserved environment variable names, for the C8
witness. -/
def argsPH : SudoArgs := { defaultArgs with preserve_env := ["PATH", "HOME"] }

theorem setenv_tokens_in_order_witness :
    ∃ pre mid tail,
      (["run0", "--background=", "--setenv=PATH", "--setenv=HOME", "--", "true"]
          : List String)
        = pre ++ argsPH.preserve_env.map (fun v => "--setenv=" ++ v)
            ++ mid ++ ["--"] ++ tail :=
  setenv_tokens_in_order argsPH ["true"] cleanEnv db0 _ rfl

theorem validationError_none_preserve_groups (args : SudoArgs) (env : Env)
    (hv : validationError args env = none) : args.preserve_groups = false := by
  cases hb : args.preserve_groups with
  | false => rfl
  | true =>
    exfalso
    unfold validationError at hv
    split_ifs at hv

/-- C9: a request that reaches the builder has `preserve_groups` false (the
validator rejected it otherwise), so the builder's second
`--no-ask-password` branch (src/main.rs lines 226-228) contributes nothing
and the flag segment of the built invocation carries the
`--no-ask-password` token exactly when the non-interactive flag is set —
hence at most once. -/
theorem no_ask_password_exactly_non_interactive (args : SudoArgs)
    (command : List String) (env : Env) (db : AccountDb) (argv : List String)
    (h : mainRun args command env db = MainResult.exec argv) :
    args.preserve_groups = false ∧
      ∃ pre tail,
        argv = pre ++ (if args.non_interactive then ["--no-ask-password"] else [])
          ++ (if args.preserve_groups then ["--no-ask-password"] else [])
          ++ ["--"] ++ tail := by
  unfold mainRun at h
  cases hv : validationError args env with
  | some m => rw [hv] at h; exact MainResult.noConfusion h
  | none =>
    refine ⟨validationError_none_preserve_groups args env hv, ?_⟩
    rw [hv] at h
    by_cases hns : args.shell.no_shell = true
    · rw [if_pos hns] at h
      by_cases hce : command.isEmpty = true
      · rw [if_pos hce] at h; exact MainResult.noConfusion h
      · rw [if_neg hce] at h
        injection h with h'
        refine ⟨["run0", "--background="]
            ++ (match args.chdir with | some d => ["-D", d] | none => [])
            ++ args.preserve_env.map (fun v => "--setenv=" ++ v)
            ++ (match args.group with | some g => ["-g", g] | none => [])
            ++ (match args.user with | some u => ["-u", u] | none => [])
            ++ (match args.host with | some ho => ["--machine=" ++ ho] | none => []),
          command, ?_⟩
        rw [← h']
        simp [baseFlags]
    · rw [if_neg hns] at h
      cases hr : resolveShell args env db with
      | none => rw [hr] at h; exact MainResult.noConfusion h
      | some sh =>
        rw [hr] at h
        injection h with h'
        refine ⟨["run0", "--background="]
            ++ (match args.chdir with | some d => ["-D", d] | none => [])
            ++ args.preserve_env.map (fun v => "--setenv=" ++ v)
            ++ (match args.group with | some g => ["-g", g] | none => [])
            ++ (match args.user with | some u => ["-u", u] | none => [])
            ++ (match args.host with | some ho => ["--machine=" ++ ho] | none => []),
          [sh] ++ (if args.shell.login then ["--login"] else [])
            ++ (if command.isEmpty then [] else ["-c", shell_escape command]), ?_⟩
        rw [← h']
        simp [baseFlags]

/-- Arguments with the non-interactive flag set, for the C9 witness. -/
def argsNI : SudoArgs := { defaultArgs with non_interactive := true }

theorem no_ask_password_witness :
    argsNI.preserve_groups = false ∧
      ∃ pre tail,
        (["run0", "--background=", "--no-ask-password", "--", "true"] : List String)
          = pre ++ (if argsNI.non_interactive then ["--no-ask-password"] else [])
            ++ (if argsNI.preserve_groups then ["--no-ask-password"] else [])
            ++ ["--"] ++ tail :=
  no_ask_password_exactly_non_interactive argsNI ["true"] cleanEnv db0 _ rfl

/-! ## C10: flags accepted but without effect -/

/-- C10: the bell flag, the set-home flag and (while no `SUDO_ASKPASS`
override is present) the askpass flag are parsed but never read by
validation or by the builder: any run is identical to the same run with
the three flags cleared; and a request setting all three with a clean
environment is accepted and execs, so none of them causes a rejection. -/
theorem bell_sethome_askpass_no_effect :
    (∀ (args : SudoArgs) (b hm a : Bool) (command : List String) (env : Env)
        (db : AccountDb), env.sudo_askpass = none →
      mainRun { args with bell := b, set_home := hm, askpass := a } command env db
        = mainRun { args with bell := false, set_home := false, askpass := false }
            command env db)
      ∧ ∀ db : AccountDb,
          mainRun { defaultArgs with bell := true, set_home := true, askpass := true }
              ["true"] cleanEnv db
            = MainResult.exec ["run0", "--background=", "--", "true"] := by
  constructor
  · intro args b hm a command env db henv
    simp [mainRun, validationError, baseFlags, resolveShell, ShellArgs.no_shell, henv]
  · intro db
    rfl

theorem bell_sethome_askpass_no_effect_witness :
    mainRun { defaultArgs with bell := true, set_home := true, askpass := true }
        ["true"] cleanEnv db0
      = mainRun { defaultArgs with bell := false, set_home := false, askpass := false }
          ["true"] cleanEnv db0 :=
  bell_sethome_askpass_no_effect.1 defaultArgs true true true ["true"] cleanEnv db0 rfl
